import Mathlib

/-!
Shallow embedding of the DNS-log activity classifiers of the
nextdns-report-viewer repository.

The definitions below are translated from the CSV-processing module
(src/unnamed/part_002) and the pattern tables (src/unnamed/part_006).
JavaScript strings are modelled as Lean `String`s, `String.prototype.includes`
as an executable substring test on the underlying character lists, and
`Date` values as their epoch-millisecond integers (the classifiers only ever
compare timestamps and take differences, both of which are exact integer
operations on millisecond values).
-/

/-- Boolean test that `p` is a prefix of `s`, on character lists. -/
def startsWithList : List Char → List Char → Bool
  | [], _ => true
  | _ :: _, [] => false
  | a :: as, b :: bs => a == b && startsWithList as bs

/-- Boolean substring test on character lists: `containsSub s p` is true iff
`p` occurs contiguously inside `s`.  This mirrors JavaScript
`s.includes(p)` (which, like this function, is case-sensitive and returns
true for the empty pattern). -/
def containsSub : List Char → List Char → Bool
  | [], pat => pat.isEmpty
  | c :: rest, pat => startsWithList pat (c :: rest) || containsSub rest pat

/-- JavaScript `s.includes(pat)` on Lean strings. -/
def strIncludes (s pat : String) : Bool :=
  containsSub s.data pat.data

/-- The projection of a `ProcessedLogEntry` (src/unnamed/part_006) actually
read by the detection algorithms: the queried domain and the parsed
timestamp (epoch milliseconds of `parsedTimestamp`).  The remaining CSV
fields (query type, device, status, ...) are never consulted by
`detectWhatsAppActivity`, `detectFacebookActivity`,
`detectRelationshipConcerns` or `detectReelsMasking`. -/
structure ProcessedLogEntry where
  domain : String
  time : Int
deriving DecidableEq

/-- Stable insertion into a time-ascending list. -/
def insertByTime (e : ProcessedLogEntry) : List ProcessedLogEntry → List ProcessedLogEntry
  | [] => [e]
  | x :: xs => if e.time ≤ x.time then e :: x :: xs else x :: insertByTime e xs

/-- Stable ascending sort by timestamp, mirroring the JavaScript
`[...windowEntries].sort((a, b) => a.parsedTimestamp.getTime() - b.parsedTimestamp.getTime())`
(ECMAScript `Array.prototype.sort` is stable). -/
def sortByTime : List ProcessedLogEntry → List ProcessedLogEntry
  | [] => []
  | x :: xs => insertByTime x (sortByTime xs)

/-- Helper function to find entries within a time window
(src/unnamed/part_002, `findEntriesInWindow`).  The JavaScript computes
`timeDiff = (entry - target) / 1000` seconds and keeps
`timeDiff >= -beforeSeconds && timeDiff <= afterSeconds`; on millisecond
integers this is exactly the condition below. -/
def findEntriesInWindow (entries : List ProcessedLogEntry) (targetTime : Int)
    (beforeSeconds afterSeconds : Int) : List ProcessedLogEntry :=
  entries.filter fun entry =>
    decide (-(beforeSeconds * 1000) ≤ entry.time - targetTime) &&
    decide (entry.time - targetTime ≤ afterSeconds * 1000)

/-- Helper function to check for domain patterns
(src/unnamed/part_002, `hasDomainPattern`). -/
def hasDomainPattern (entries : List ProcessedLogEntry) (patterns : List String) : Bool :=
  entries.any fun entry => patterns.any fun pattern => strIncludes entry.domain pattern

/-- Helper function to count domain pattern occurrences
(src/unnamed/part_002, `countDomainPattern`). -/
def countDomainPattern (entries : List ProcessedLogEntry) (patterns : List String) : Nat :=
  (entries.filter fun entry => patterns.any fun pattern => strIncludes entry.domain pattern).length

/-- Apple Push Notification detection (src/unnamed/part_002, `detectAPNs`). -/
def detectAPNs (entries : List ProcessedLogEntry) : List ProcessedLogEntry :=
  entries.filter fun entry =>
    strIncludes entry.domain ("courier") && strIncludes entry.domain ("push.apple.com")

namespace WHATSAPP_ACTIVITY_INDICATORS

/-- Core signalling and messaging patterns (src/unnamed/part_006). -/
def signalling : List String := ["g.whatsapp.net", "graph.whatsapp.com", "dit.whatsapp.net"]

/-- Media upload pattern (src/unnamed/part_006). -/
def mediaUpload : List String := ["mmg.whatsapp.net"]

/-- Media download patterns (src/unnamed/part_006). -/
def mediaDownload : List String := ["media-", ".cdn.whatsapp.net", "mmx-ds.cdn.whatsapp.net"]

/-- Voice and video call patterns (src/unnamed/part_006). -/
def calls : List String := ["dit.whatsapp.net", "dyn.whatsapp.net", "relay.whatsapp.net"]

/-- Core domain patterns (src/unnamed/part_006). -/
def core : List String := ["whatsapp.net", "whatsapp.com"]

/-- Apple push notification patterns (src/unnamed/part_006). -/
def apns : List String := ["courier", "push.apple.com"]

/-- Background and maintenance patterns (src/unnamed/part_006). -/
def background : List String :=
  ["static.whatsapp.net", "edge-mqtt.whatsapp.net", "edge-mqtt.facebook.com"]

end WHATSAPP_ACTIVITY_INDICATORS

namespace FACEBOOK_ACTIVITY_INDICATORS

/-- Call indicator patterns (src/unnamed/part_006). -/
def calls : List String := ["external.xx.fbcdn.net"]

/-- Text message sending patterns (src/unnamed/part_006). -/
def textSend : List String := ["pm.facebook.com", "web.facebook.com"]

/-- Real-time messaging patterns (src/unnamed/part_006). -/
def messaging : List String :=
  ["edge-mqtt.facebook.com", "gateway.facebook.com", "chat-e2ee.facebook.com"]

/-- Media upload pattern (src/unnamed/part_006). -/
def mediaUpload : List String := ["rupload.facebook.com"]

/-- Media download patterns (src/unnamed/part_006). -/
def mediaDownload : List String := ["scontent.", ".fbcdn.net", ".fbsbx.com"]

/-- Backend API patterns (src/unnamed/part_006). -/
def api : List String :=
  ["star.c10r.facebook.com", "star.fallback.c10r.facebook.com", "graph.facebook.com",
   "graph.instagram.com"]

/-- Core domain patterns (src/unnamed/part_006). -/
def core : List String := ["facebook.com", "messenger.com", "instagram.com"]

/-- Background and telemetry patterns (src/unnamed/part_006). -/
def background : List String :=
  ["www.facebook.com", "static.xx.fbcdn.net", "connect.facebook.net"]

/-- Reels and video content indicator patterns (src/unnamed/part_006). -/
def reelsVideo : List String :=
  ["static-", ".xx.fbcdn.net", "external-", "-netseer-ipaddr-assoc.", "oculuscdn.com",
   "securecdn.oculus.com", "cdninstagram.com"]

end FACEBOOK_ACTIVITY_INDICATORS

namespace RELATIONSHIP_CONCERN_INDICATORS

/-- Dating and hookup app patterns (src/unnamed/part_006). -/
def datingApps : List String :=
  ["tinder.com", "bumble.com", "hinge.co", "match.com", "eharmony.com",
   "okcupid.com", "pof.com", "zoosk.com", "badoo.com", "happn.com",
   "grindr.com", "scruff.com", "jackd.com", "hornet.com",
   "adultfriendfinder.com", "ashley-madison.com", "seeking.com",
   "raya.co", "coffeemeetsbagel.com", "theinner-circle.com",
   "elitesingles.com", "silversingles.com", "ourtime.com",
   "christianmingle.com", "jdate.com", "blackpeoplemeet.com",
   "loveandseek.com", "farmersonly.com", "militarycupid.com"]

/-- Alternative messaging platform patterns (src/unnamed/part_006). -/
def alternativeMessaging : List String :=
  ["telegram.org", "signal.org", "discord.com", "slack.com",
   "snapchat.com", "kik.com", "viber.com", "line.me",
   "wechat.com", "qq.com", "kakaotalk.com", "threema.ch",
   "wickr.com", "element.io", "session.im", "briar.app",
   "jami.net", "riot.im", "matrix.org", "keybase.io",
   "dust.com", "confide.com", "coverme.ws", "silent-phone.com"]

/-- Video calling platform patterns (src/unnamed/part_006). -/
def videoCalling : List String :=
  ["zoom.us", "skype.com", "teams.microsoft.com", "meet.google.com",
   "webex.com", "gotomeeting.com", "bluejeans.com", "jitsi.org",
   "whereby.com", "appear.in", "bigbluebutton.org", "jami.net",
   "facetime.apple.com", "duo.google.com", "allo.google.com"]

/-- Social media messaging patterns (src/unnamed/part_006). -/
def socialMessaging : List String :=
  ["twitter.com", "x.com", "linkedin.com", "reddit.com",
   "pinterest.com", "tumblr.com", "twitch.tv", "onlyfans.com",
   "chaturbate.com", "cam4.com", "myfreecams.com", "streamate.com",
   "flirt4free.com", "camsoda.com", "bongacams.com", "stripchat.com"]

/-- Anonymous platform patterns (src/unnamed/part_006). -/
def anonymousPlatforms : List String :=
  ["yolo.live", "sarahah.com", "tellonym.me", "curiouscat.me",
   "ask.fm", "lipsi.co", "sendit.gg", "ngl.link",
   "whisper.sh", "anonymous.com", "confession.co", "secrets.co"]

/-- Exclusion patterns for common false positives (src/unnamed/part_006). -/
def excludePatterns : List String :=
  ["chat.google.com", "hangouts.google.com", "mail.google.com",
   "accounts.google.com", "apis.google.com", "fonts.google.com", "maps.google.com"]

end RELATIONSHIP_CONCERN_INDICATORS

/-- Result record of `detectRelationshipConcerns` (src/unnamed/part_002). -/
structure RelationshipConcerns where
  datingApps : List String
  alternativeMessaging : List String
  videoCalling : List String
  socialMessaging : List String
  anonymousPlatforms : List String
  concernScore : Nat
deriving DecidableEq

/-- Exclusion test inside `detectRelationshipConcerns` (src/unnamed/part_002):
a domain is skipped when it matches any pattern of the exclusion list. -/
def isExcludedDomain (domain : String) : Bool :=
  RELATIONSHIP_CONCERN_INDICATORS.excludePatterns.any fun pattern => strIncludes domain pattern

/-- One domain's contribution to a category's match list: for each pattern of
the category, push it if the domain contains it and it is not already listed
(src/unnamed/part_002, the `forEach` bodies inside `detectRelationshipConcerns`). -/
def addCategoryMatches (domain : String) (pats : List String) (acc : List String) : List String :=
  pats.foldl
    (fun acc p => if strIncludes domain p && !(acc.contains p) then acc ++ [p] else acc) acc

/-- The accumulated match list of one category over a domain list, skipping
excluded domains.  The source updates the five category arrays in a single
loop over the domains; since each array depends only on the domain sequence
and its own pattern list, folding per category is the same computation. -/
def collectCategory (domains : List String) (pats : List String) : List String :=
  domains.foldl
    (fun acc domain => if isExcludedDomain domain then acc else addCategoryMatches domain pats acc)
    []

/-- Relationship concern detection (src/unnamed/part_002,
`detectRelationshipConcerns`). -/
def detectRelationshipConcerns (domains : List String) : RelationshipConcerns :=
  let datingApps := collectCategory domains RELATIONSHIP_CONCERN_INDICATORS.datingApps
  let alternativeMessaging :=
    collectCategory domains RELATIONSHIP_CONCERN_INDICATORS.alternativeMessaging
  let videoCalling := collectCategory domains RELATIONSHIP_CONCERN_INDICATORS.videoCalling
  let socialMessaging := collectCategory domains RELATIONSHIP_CONCERN_INDICATORS.socialMessaging
  let anonymousPlatforms :=
    collectCategory domains RELATIONSHIP_CONCERN_INDICATORS.anonymousPlatforms
  let concernScore :=
    datingApps.length * 10 + anonymousPlatforms.length * 8 + alternativeMessaging.length * 6 +
      videoCalling.length * 4 + socialMessaging.length * 2
  ⟨datingApps, alternativeMessaging, videoCalling, socialMessaging, anonymousPlatforms,
    concernScore⟩

/-- Result record of `detectWhatsAppActivity` (the `whatsappActivity` field of
`TimeWindowStats` in src/unnamed/part_006). -/
structure WhatsAppActivity where
  isTextMessage : Bool
  isMediaTransfer : Bool
  isVoiceCall : Bool
  isVideoCall : Bool
  activityScore : Nat
  callDirection : String
deriving DecidableEq

/-- Early-exit guard of `detectWhatsAppActivity` (src/unnamed/part_002):
no WhatsApp core domain and no signalling domain in the window. -/
def whatsappNoCoreSignal (windowEntries : List ProcessedLogEntry) : Bool :=
  let sortedEntries := sortByTime windowEntries
  !(hasDomainPattern sortedEntries WHATSAPP_ACTIVITY_INDICATORS.core) &&
    !(hasDomainPattern sortedEntries WHATSAPP_ACTIVITY_INDICATORS.signalling)

/-- Conservative NetSeer suppression of `detectWhatsAppActivity`
(src/unnamed/part_002): with the NetSeer CDN active, WhatsApp detection is
suppressed unless there is very strong evidence (APNs notifications or a
media upload). -/
def whatsappNetSeerSuppress (windowEntries : List ProcessedLogEntry) : Bool :=
  let sortedEntries := sortByTime windowEntries
  let apnsEntries := detectAPNs sortedEntries
  let hasMediaUpload := hasDomainPattern sortedEntries WHATSAPP_ACTIVITY_INDICATORS.mediaUpload
  (sortedEntries.any fun entry => strIncludes entry.domain ("-netseer-ipaddr-assoc.")) &&
    !(apnsEntries.length > 0 || hasMediaUpload)

/-- Rules 1 to 7 of `detectWhatsAppActivity` (src/unnamed/part_002),
translated rule by rule in source order.  The JavaScript mutates six local
variables in sequence; here every mutation site becomes a new let-binding,
and each loop with a `break` that always assigns the same values becomes an
existence test (`List.any`), except the voice-note loop whose outcome
depends on the first matching signalling entry, which becomes a
`List.find?`. -/
def whatsappRules (windowEntries : List ProcessedLogEntry) : WhatsAppActivity :=
  let sortedEntries := sortByTime windowEntries
  let hasSignalling := hasDomainPattern sortedEntries WHATSAPP_ACTIVITY_INDICATORS.signalling
  let hasMediaUpload := hasDomainPattern sortedEntries WHATSAPP_ACTIVITY_INDICATORS.mediaUpload
  let hasMediaDownload := hasDomainPattern sortedEntries WHATSAPP_ACTIVITY_INDICATORS.mediaDownload
  let hasCore := hasDomainPattern sortedEntries WHATSAPP_ACTIVITY_INDICATORS.core
  let apnsEntries := detectAPNs sortedEntries
  (
      -- 1. Incoming call detection: APNs anchor with signalling in [-10s, +5s]
      -- and no Facebook upload/MQTT interference in [-10s, +15s].
      let rule1hit := apnsEntries.any fun apnsEntry =>
        let signallingInWindow :=
          (findEntriesInWindow sortedEntries apnsEntry.time 10 5).filter fun entry =>
            WHATSAPP_ACTIVITY_INDICATORS.signalling.any fun pattern =>
              strIncludes entry.domain pattern
        let facebookInterference :=
          (findEntriesInWindow sortedEntries apnsEntry.time 10 15).filter fun entry =>
            strIncludes entry.domain ("rupload.facebook.com") ||
              strIncludes entry.domain ("edge-mqtt.facebook.com")
        signallingInWindow.length > 0 && facebookInterference.length == 0
      let isVoiceCall := rule1hit
      let callDirection1 : String := if rule1hit then "incoming" else ""
      let score1 : Nat := if rule1hit then 8 else 0
      -- 2. Voice note detection: first signalling entry followed within 120s
      -- by a WhatsApp media CDN fetch; direction from a preceding APNs.
      let signallingEntries := sortedEntries.filter fun entry =>
        WHATSAPP_ACTIVITY_INDICATORS.signalling.any fun pattern =>
          strIncludes entry.domain pattern
      let laterMediaCDN := fun (s : ProcessedLogEntry) =>
        (findEntriesInWindow sortedEntries s.time 0 120).filter fun entry =>
          strIncludes entry.domain ("media-") &&
            strIncludes entry.domain ("cdn.whatsapp.net") && decide (s.time < entry.time)
      let precedingAPNs := fun (s : ProcessedLogEntry) =>
        (findEntriesInWindow sortedEntries s.time 15 0).filter fun entry =>
          strIncludes entry.domain ("courier") && strIncludes entry.domain ("push.apple.com")
      let rule2find :=
        if !isVoiceCall && hasSignalling then
          signallingEntries.find? fun s => (laterMediaCDN s).length > 0
        else none
      let isMediaTransfer2 := rule2find.isSome
      let callDirection2 : String :=
        match rule2find with
        | some s => if (precedingAPNs s).length > 0 then "incoming" else "outgoing"
        | none => callDirection1
      let score2 : Nat :=
        score1 +
          match rule2find with
          | some s => if (precedingAPNs s).length > 0 then 8 else 6
          | none => 0
      -- 3. Text message and conversation detection.
      let hasAPNsActivity := apnsEntries.length > 0
      let hasDitActivity := hasDomainPattern sortedEntries ["dit.whatsapp.net"]
      let hasGraphActivity := hasDomainPattern sortedEntries ["graph.whatsapp.com"]
      let rule3 : Bool × Nat :=
        if !isVoiceCall && !isMediaTransfer2 then
          if hasAPNsActivity && hasSignalling then (true, 7)
          else if hasDitActivity && hasGraphActivity && hasSignalling then (true, 5)
          else if hasGraphActivity && hasSignalling then (true, 4)
          else if hasMediaUpload then (true, 4)
          else (false, 0)
        else (false, 0)
      let isTextMessage3 := rule3.1
      let score3 := score2 + rule3.2
      -- 4. Voice note / media sent detection: mmg.whatsapp.net present.
      let hasStaticActivity := hasDomainPattern sortedEntries ["static.whatsapp.net"]
      let isMediaTransfer4 := isMediaTransfer2 || hasMediaUpload
      let score4 := score3 +
        (if hasMediaUpload then
          6 + (if hasMediaDownload && hasStaticActivity && hasDitActivity then 3 else 0)
        else 0)
      -- 5. Voice note received detection: APNs anchor, signalling and media CDN
      -- within 300s, with fewer than 2 nearby Apple system entries.
      let rule5hit := apnsEntries.any fun apnsEntry =>
        let whatsappSignalling :=
          (findEntriesInWindow sortedEntries apnsEntry.time 0 300).filter fun entry =>
            WHATSAPP_ACTIVITY_INDICATORS.signalling.any fun pattern =>
              strIncludes entry.domain pattern
        let voiceNoteMedia :=
          (findEntriesInWindow sortedEntries apnsEntry.time 0 300).filter fun entry =>
            strIncludes entry.domain ("media-") && strIncludes entry.domain ("cdn.whatsapp.net")
        let appleSystemActivity :=
          (findEntriesInWindow sortedEntries apnsEntry.time 30 30).filter fun entry =>
            strIncludes entry.domain ("apple.com") || strIncludes entry.domain ("icloud.com")
        whatsappSignalling.length > 0 &&
          (voiceNoteMedia.length > 0 && appleSystemActivity.length < 2)
      let rule5fires := !isVoiceCall && !isMediaTransfer4 && rule5hit
      let isMediaTransfer5 := isMediaTransfer4 || rule5fires
      let score5 := score4 + (if rule5fires then 6 else 0)
      -- 6. Media received detection: media CDN without upload and no call.
      let rule6fires := hasMediaDownload && !hasMediaUpload && !isVoiceCall
      let isMediaTransfer6 := isMediaTransfer5 || rule6fires
      let score6 := score5 + (if rule6fires then 4 else 0)
      -- 7. Persistent connection detection.
      let rule7fires := isMediaTransfer6 && !isTextMessage3 && score6 ≥ 4
      let isTextMessage7 := isTextMessage3 || rule7fires
      let score7 := score6 + (if rule7fires then 2 else 0)
      -- Minimal score for any WhatsApp presence.
      let finalScore := if score7 == 0 && (hasCore || hasSignalling) then 1 else score7
      (⟨isTextMessage7, isMediaTransfer6, isVoiceCall, false, finalScore, callDirection2⟩ :
        WhatsAppActivity))

/-- WhatsApp activity classifier (src/unnamed/part_002,
`detectWhatsAppActivity`): the two early returns of the source become the
two if-branches, and the remaining rule chain is `whatsappRules`.  The
helper definitions recompute the same pure feature values the source
computes once up front. -/
def detectWhatsAppActivity (windowEntries : List ProcessedLogEntry) : WhatsAppActivity :=
  if whatsappNoCoreSignal windowEntries then ⟨false, false, false, false, 0, ""⟩
  else if whatsappNetSeerSuppress windowEntries then ⟨false, false, false, false, 0, ""⟩
  else whatsappRules windowEntries

/-- Result record of `detectFacebookActivity` (the `facebookActivity` field of
`TimeWindowStats` in src/unnamed/part_006). -/
structure FacebookActivity where
  isMessaging : Bool
  isMediaTransfer : Bool
  isBackgroundRefresh : Bool
  isInstagramActivity : Bool
  isReelsScrolling : Bool
  activityScore : Nat
  isCall : Bool
deriving DecidableEq

/-- Count of entries whose domain contains the string facebook
(src/unnamed/part_002, `totalFacebookDomains` inside `detectFacebookActivity`). -/
def totalFacebookDomainCount (entries : List ProcessedLogEntry) : Nat :=
  (entries.filter fun entry => strIncludes entry.domain ("facebook")).length

/-- Number of distinct domains containing the string facebook, mirroring
`new Set(entries.filter(...).map(e => e.domain)).size`
(src/unnamed/part_002, `uniqueFacebookDomains` inside `detectFacebookActivity`). -/
def uniqueFacebookDomainCount (entries : List ProcessedLogEntry) : Nat :=
  (((entries.filter fun entry => strIncludes entry.domain ("facebook")).map
    fun entry => entry.domain).dedup).length

/-- Early-exit guard of `detectFacebookActivity` (src/unnamed/part_002):
no Facebook core, messaging, text-send or media-upload domain. -/
def facebookGuardFail (windowEntries : List ProcessedLogEntry) : Bool :=
  let sortedEntries := sortByTime windowEntries
  !(hasDomainPattern sortedEntries FACEBOOK_ACTIVITY_INDICATORS.core) &&
    !(hasDomainPattern sortedEntries FACEBOOK_ACTIVITY_INDICATORS.messaging) &&
    !(hasDomainPattern sortedEntries FACEBOOK_ACTIVITY_INDICATORS.textSend) &&
    !(hasDomainPattern sortedEntries FACEBOOK_ACTIVITY_INDICATORS.mediaUpload)

/-- NetSeer-CDN branch of the reels override (src/unnamed/part_002, rule 0 of
`detectFacebookActivity`): a reels/video pattern matched and a NetSeer CDN
domain is present.  The source also computes two flags the rest of the
function never reads (`hasExternalVideo` and `hasOculusContent`); they have
no observable effect and are omitted. -/
def facebookReelsNetSeer (windowEntries : List ProcessedLogEntry) : Bool :=
  let sortedEntries := sortByTime windowEntries
  hasDomainPattern sortedEntries FACEBOOK_ACTIVITY_INDICATORS.reelsVideo &&
    sortedEntries.any fun entry => strIncludes entry.domain ("-netseer-ipaddr-assoc.")

/-- Video-static-assets branch of the reels override (src/unnamed/part_002,
rule 0 of `detectFacebookActivity`): a reels/video pattern matched, no
NetSeer domain, but a domain containing both static- and .xx.fbcdn.net. -/
def facebookReelsStatic (windowEntries : List ProcessedLogEntry) : Bool :=
  let sortedEntries := sortByTime windowEntries
  hasDomainPattern sortedEntries FACEBOOK_ACTIVITY_INDICATORS.reelsVideo &&
    sortedEntries.any fun entry =>
      strIncludes entry.domain ("static-") && strIncludes entry.domain (".xx.fbcdn.net")

/-- Call detection of `detectFacebookActivity` (src/unnamed/part_002,
rule 1): STUN marker plus Messenger markers, with no decisive WhatsApp
media signal in the same window. -/
def facebookIsCall (windowEntries : List ProcessedLogEntry) : Bool :=
  let sortedEntries := sortByTime windowEntries
  let hasCalls := hasDomainPattern sortedEntries FACEBOOK_ACTIVITY_INDICATORS.calls
  let hasMessagingMQTT := hasDomainPattern sortedEntries FACEBOOK_ACTIVITY_INDICATORS.messaging
  let hasCore := hasDomainPattern sortedEntries FACEBOOK_ACTIVITY_INDICATORS.core
  let whatsappInterference := sortedEntries.filter fun entry =>
    strIncludes entry.domain ("mmg.whatsapp.net") ||
      (strIncludes entry.domain ("media-") && strIncludes entry.domain ("cdn.whatsapp.net"))
  hasCalls && (hasMessagingMQTT || hasCore) && whatsappInterference.length == 0

/-- App-launch detection of `detectFacebookActivity` (src/unnamed/part_002,
rule 2): either a large burst of distinct Facebook domains with typical
launch domains and no media, or the launch-domain quartet together with no
media and no specific messaging evidence. -/
def facebookIsLikelyAppLaunch (windowEntries : List ProcessedLogEntry) : Bool :=
  let sortedEntries := sortByTime windowEntries
  let hasMessagingMQTT := hasDomainPattern sortedEntries FACEBOOK_ACTIVITY_INDICATORS.messaging
  let hasMediaUpload := hasDomainPattern sortedEntries FACEBOOK_ACTIVITY_INDICATORS.mediaUpload
  let hasMediaDownload := hasDomainPattern sortedEntries FACEBOOK_ACTIVITY_INDICATORS.mediaDownload
  let totalFacebookDomains := totalFacebookDomainCount sortedEntries
  let uniqueFacebookDomains := uniqueFacebookDomainCount sortedEntries
  let hasE2EE := hasDomainPattern sortedEntries ["chat-e2ee.facebook.com"]
  let hasTypicalAppLaunchDomains := hasDomainPattern sortedEntries
    ["www.facebook.com", "web.facebook.com", "m.facebook.com",
     "gateway.facebook.com", "graph.facebook.com", "api.facebook.com",
     "star.fallback.c10r.facebook.com", "lookaside.facebook.com"]
  let hasStrongTextSendEvidence := hasDomainPattern sortedEntries ["pm.facebook.com"]
  let hasWeakTextSendEvidence := hasDomainPattern sortedEntries ["web.facebook.com"]
  -- analyzeTemporalPattern: burst versus isolated upload.
  let temporalPattern : Bool × Bool :=
    if !hasMediaUpload then (false, false)
    else
      match sortedEntries.filter fun entry =>
          strIncludes entry.domain ("rupload.facebook.com") with
      | [] => (false, false)
      | ruploadEntry :: _ =>
        let nearbyFacebookEntries := sortedEntries.filter fun entry =>
          strIncludes entry.domain ("facebook") &&
            !strIncludes entry.domain ("rupload.facebook.com") &&
            decide ((entry.time - ruploadEntry.time).natAbs ≤ 5000)
        (nearbyFacebookEntries.length ≥ 6, nearbyFacebookEntries.length ≤ 2)
  let isBurstPattern := temporalPattern.1
  let isIsolatedPattern := temporalPattern.2
  let apnsEntries := detectAPNs sortedEntries
  let hasSpecificMessagingEvidence :=
    (hasMediaUpload && !isBurstPattern &&
      (hasStrongTextSendEvidence || hasWeakTextSendEvidence || hasMessagingMQTT || hasE2EE)) ||
    (hasMediaUpload && isIsolatedPattern && hasMessagingMQTT) ||
    (hasStrongTextSendEvidence && hasMessagingMQTT && !hasMediaUpload && !hasMediaDownload) ||
    (apnsEntries.length > 0 && (hasMediaUpload || hasMediaDownload)) ||
    (hasWeakTextSendEvidence && uniqueFacebookDomains ≤ 5 && totalFacebookDomains ≤ 8)
  (uniqueFacebookDomains ≥ 8 && totalFacebookDomains ≥ 10 &&
    hasTypicalAppLaunchDomains && !hasMediaUpload && !hasMediaDownload) ||
  (hasDomainPattern sortedEntries ["gateway.facebook.com"] &&
    hasDomainPattern sortedEntries ["graph.facebook.com"] &&
    hasDomainPattern sortedEntries ["edge-mqtt.facebook.com"] &&
    hasDomainPattern sortedEntries ["www.facebook.com"] &&
    !hasMediaUpload && !hasMediaDownload && !hasSpecificMessagingEvidence)

/-- Rules 3 to 9, the background-refresh fallback and the score floor of
`detectFacebookActivity` (src/unnamed/part_002), translated in source
order; each JavaScript mutation site becomes a new let-binding.  The
`isCall` and `isLikelyAppLaunch` locals of the source are the helper
definitions `facebookIsCall` and `facebookIsLikelyAppLaunch`. -/
def facebookRules (windowEntries : List ProcessedLogEntry) : FacebookActivity :=
  let sortedEntries := sortByTime windowEntries
  let hasTextSend := hasDomainPattern sortedEntries FACEBOOK_ACTIVITY_INDICATORS.textSend
  let hasMessagingMQTT := hasDomainPattern sortedEntries FACEBOOK_ACTIVITY_INDICATORS.messaging
  let hasMediaUpload := hasDomainPattern sortedEntries FACEBOOK_ACTIVITY_INDICATORS.mediaUpload
  let hasMediaDownload := hasDomainPattern sortedEntries FACEBOOK_ACTIVITY_INDICATORS.mediaDownload
  let hasCore := hasDomainPattern sortedEntries FACEBOOK_ACTIVITY_INDICATORS.core
  let hasBackground := hasDomainPattern sortedEntries FACEBOOK_ACTIVITY_INDICATORS.background
  let uniqueFacebookDomains := uniqueFacebookDomainCount sortedEntries
  let hasE2EE := hasDomainPattern sortedEntries ["chat-e2ee.facebook.com"]
  let hasStrongTextSendEvidence := hasDomainPattern sortedEntries ["pm.facebook.com"]
  let hasWeakTextSendEvidence := hasDomainPattern sortedEntries ["web.facebook.com"]
  let apnsEntries := detectAPNs sortedEntries
  let isCall := facebookIsCall windowEntries
  let isLikelyAppLaunch := facebookIsLikelyAppLaunch windowEntries
  let score1 : Nat := if isCall then 7 else 0
  -- 3. Text sent: strict or sufficiently isolated weak send UI plus MQTT,
  -- with no media, not app launch, no NetSeer CDN.
  let hasNetSeerCDN2 := sortedEntries.any fun entry =>
    strIncludes entry.domain ("-netseer-ipaddr-assoc.")
  let hasStrictTextSendEvidence := hasDomainPattern sortedEntries ["pm.facebook.com"]
  let rule3fires := !isCall &&
    (hasStrictTextSendEvidence || (hasWeakTextSendEvidence && uniqueFacebookDomains ≤ 4)) &&
    hasMessagingMQTT && !hasMediaUpload && !hasMediaDownload && !isLikelyAppLaunch &&
    !hasNetSeerCDN2
  let isMessaging3 := rule3fires
  let score3 := score1 + (if rule3fires then 6 else 0)
  -- 4. Message plus photo exchange pattern.
  let rule4gate := (hasMediaUpload || hasMediaDownload) && !hasNetSeerCDN2
  let hasUpload := hasDomainPattern sortedEntries ["rupload.facebook.com"]
  let hasDownload := hasDomainPattern sortedEntries ["scontent-", "fbcdn.net"]
  let hasMessagingContext := hasMessagingMQTT || hasE2EE ||
    hasDomainPattern sortedEntries ["gateway.facebook.com", "graph.facebook.com"]
  let hasStrongMessagingEvidence :=
    hasStrongTextSendEvidence || (hasE2EE && hasMessagingContext) ||
      (hasUpload && hasMessagingContext) || apnsEntries.length > 0 ||
      (hasWeakTextSendEvidence && uniqueFacebookDomains ≤ 5)
  let rule4main : Bool × Nat :=
    if rule4gate && hasMessagingContext &&
        (hasStrongMessagingEvidence || !isLikelyAppLaunch) then
      if hasUpload && hasDownload then (true, 9)
      else if hasUpload && (hasTextSend || hasE2EE || hasMessagingContext) then (true, 8)
      else if hasDownload && hasE2EE && hasMessagingMQTT then (true, 7)
      else (false, 0)
    else (false, 0)
  let isMessaging4a := isMessaging3 || rule4main.1
  let isMediaTransfer4a := rule4main.1
  -- Secondary pattern inside rule 4: APNs-triggered facebook activity.
  let apnsFacebookHit := apnsEntries.any fun apnsEntry =>
    ((findEntriesInWindow sortedEntries apnsEntry.time 0 300).filter fun entry =>
      strIncludes entry.domain ("facebook")).length > 0
  let rule4secondary := rule4gate && apnsEntries.length > 0 && !isMessaging4a &&
    apnsFacebookHit && (hasUpload || hasDownload)
  let isMessaging4 := isMessaging4a || rule4secondary
  let isMediaTransfer4 := isMediaTransfer4a || rule4secondary
  let score4 := score3 + rule4main.2 + (if rule4secondary then 6 else 0)
  -- 5. API-based messaging.
  let hasAPI := hasDomainPattern sortedEntries FACEBOOK_ACTIVITY_INDICATORS.api
  let hasStarFallback := hasDomainPattern sortedEntries ["star.fallback.c10r.facebook.com"]
  let hasAPNsEvidence := apnsEntries.length > 0
  let rule5gate := !isCall && !isMessaging4 && (hasMessagingMQTT || hasAPI) &&
    !isLikelyAppLaunch && !hasNetSeerCDN2
  let rule5cond := (hasE2EE && hasStarFallback) || (hasStarFallback && hasAPNsEvidence) ||
    (hasE2EE && hasAPNsEvidence)
  let rule5fires := rule5gate && rule5cond
  let isMessaging5 := isMessaging4 || rule5fires
  let score5 := score4 +
    (if rule5fires then
      if hasE2EE && hasStarFallback then 6
      else if hasE2EE || hasStarFallback then 5
      else 0
    else 0)
  -- 6. Isolated notification received: MQTT alone plus APNs.
  let mqttEntries := sortedEntries.filter fun entry =>
    strIncludes entry.domain ("edge-mqtt.facebook.com")
  let otherFacebookEntries := sortedEntries.filter fun entry =>
    strIncludes entry.domain ("facebook") &&
      !strIncludes entry.domain ("edge-mqtt.facebook.com")
  let rule6gate := !isCall && !isMessaging5 && hasMessagingMQTT && !hasTextSend &&
    !hasMediaUpload && !hasMediaDownload && !isLikelyAppLaunch && !hasNetSeerCDN2
  let rule6fires := rule6gate && mqttEntries.length ≥ 1 &&
    otherFacebookEntries.length ≤ 1 && hasAPNsEvidence
  let isMessaging6 := isMessaging5 || rule6fires
  let score6 := score5 + (if rule6fires then 4 else 0)
  -- 7. Media sent: rupload only with established messaging.
  let rule7fires := hasMediaUpload && !isLikelyAppLaunch && isMessaging6
  let isMediaTransfer7 := isMediaTransfer4 || rule7fires
  let score7 := score6 + (if rule7fires then 3 else 0)
  -- 8. Media received: scontent only with established messaging.
  let rule8fires := hasMediaDownload && !hasMediaUpload && !isLikelyAppLaunch && isMessaging6
  let isMediaTransfer8 := isMediaTransfer7 || rule8fires
  let score8 := score7 + (if rule8fires then 2 else 0)
  -- 9. Instagram activity.
  let instagramEntries := sortedEntries.filter fun entry =>
    strIncludes entry.domain ("instagram")
  let isInstagramActivity := instagramEntries.length > 0
  let score9 := score8 + (if isInstagramActivity then 3 else 0)
  -- Background refresh fallback (the source assigns activityScore = 1).
  let backgroundFires := !isMessaging6 && !isMediaTransfer8 && !isCall &&
    !isInstagramActivity &&
    (hasBackground ||
      (hasCore &&
        countDomainPattern sortedEntries FACEBOOK_ACTIVITY_INDICATORS.core ≤ 2))
  let scoreB := if backgroundFires then 1 else score9
  -- Minimal score for any Facebook presence.
  let finalScore := if scoreB == 0 && hasCore then 1 else scoreB
  ⟨isMessaging6, isMediaTransfer8, backgroundFires, isInstagramActivity, false,
    finalScore, isCall⟩

/-- Facebook/Messenger activity classifier (src/unnamed/part_002,
`detectFacebookActivity`): the four early returns of the source become the
four if-branches (guard, the two reels-override branches, app launch), and
the remaining rule chain is `facebookRules`.  The helper definitions
recompute the same pure feature values the source computes once up front. -/
def detectFacebookActivity (windowEntries : List ProcessedLogEntry) : FacebookActivity :=
  if facebookGuardFail windowEntries then ⟨false, false, false, false, false, 0, false⟩
  else if facebookReelsNetSeer windowEntries then ⟨false, false, true, false, true, 3, false⟩
  else if facebookReelsStatic windowEntries then ⟨false, false, false, false, true, 3, false⟩
  else if facebookIsLikelyAppLaunch windowEntries then
    ⟨false, false, true, false, false, 1, facebookIsCall windowEntries⟩
  else facebookRules windowEntries

/-- The slice of a per-window stats record read by `detectReelsMasking`
(src/unnamed/part_002): the minute-granularity `timeWindow` key in the
format yyyy-MM-dd HH:mm, and the two platform activity results. -/
structure WindowStat where
  timeWindow : String
  whatsappActivity : WhatsAppActivity
  facebookActivity : FacebookActivity
deriving DecidableEq

/-- A stats record extended with the masking flags that `detectReelsMasking`
adds by object spread. -/
structure MaskedWindowStat where
  stat : WindowStat
  isReelsMasking : Bool
  maskingEvidence : String
deriving DecidableEq

/-- Day number of a Gregorian calendar date (days since 0000-03-01), the
standard civil-from-days formula.  `detectReelsMasking` only ever takes
differences of parsed window times, so any fixed epoch gives the same
differences as the JavaScript `Date` parse of the local-time string
yyyy-MM-ddTHH:mm:00 in a fixed-offset timezone. -/
def daysFromCivil (y m d : Nat) : Nat :=
  let yShift := if m ≤ 2 then y - 1 else y
  let mShift := if m ≤ 2 then m + 9 else m - 3
  365 * yShift + yShift / 4 - yShift / 100 + yShift / 400 + (153 * mShift + 2) / 5 + d - 1

/-- Splitting a character list at a separator character, the structural
analogue of JavaScript `split` with a one-character separator. -/
def splitOnChar (sep : Char) : List Char → List (List Char)
  | [] => [[]]
  | c :: rest =>
    let r := splitOnChar sep rest
    if c == sep then [] :: r
    else
      match r with
      | [] => [[c]]
      | h :: t => (c :: h) :: t

/-- Decimal digits to a number, the behaviour of JavaScript number parsing
on the all-digit components of well-formed window keys. -/
def digitsToNat (cs : List Char) : Nat :=
  cs.foldl (fun acc c => acc * 10 + (c.toNat - 48)) 0

/-- Epoch milliseconds of a window key, mirroring
`new Date(stat.timeWindow.replace(' ', 'T') + ':00').getTime()` on
well-formed minute keys yyyy-MM-dd HH:mm (src/unnamed/part_002). -/
def parseWindowMs (w : String) : Int :=
  match splitOnChar ' ' w.data with
  | [datePart, timePart] =>
    match splitOnChar '-' datePart, splitOnChar ':' timePart with
    | [ys, ms, ds], [hs, mins] =>
      Int.ofNat
        ((((daysFromCivil (digitsToNat ys) (digitsToNat ms) (digitsToNat ds)) * 24 +
          digitsToNat hs) * 60 + digitsToNat mins) * 60000)
    | _, _ => 0
  | _ => 0

/-- Lexicographic character-list comparison used to model
`a.timeWindow.localeCompare(b.timeWindow)` on the fixed-width ASCII window
keys (for such strings `localeCompare` orders exactly like code-point
comparison). -/
def charListLe : List Char → List Char → Bool
  | [], _ => true
  | _ :: _, [] => false
  | a :: as, b :: bs => if a == b then charListLe as bs else decide (a.val < b.val)

/-- String comparison for window keys. -/
def windowKeyLe (a b : String) : Bool :=
  charListLe a.data b.data

/-- Stable insertion into a window-key-ascending list. -/
def insertByWindow (s : WindowStat) : List WindowStat → List WindowStat
  | [] => [s]
  | x :: xs =>
    if windowKeyLe s.timeWindow x.timeWindow then s :: x :: xs else x :: insertByWindow s xs

/-- Stable ascending sort of stats by window key, mirroring
`[...timeWindowStats].sort((a, b) => a.timeWindow.localeCompare(b.timeWindow))`. -/
def sortStatsByWindow : List WindowStat → List WindowStat
  | [] => []
  | x :: xs => insertByWindow x (sortStatsByWindow xs)

/-- Strong messaging evidence test of `detectReelsMasking`
(src/unnamed/part_002). -/
def hasStrongMessagingEvidence (stat : WindowStat) : Bool :=
  (stat.facebookActivity.isMessaging && stat.facebookActivity.isMediaTransfer) ||
  (stat.whatsappActivity.isTextMessage && stat.whatsappActivity.callDirection == ("incoming")) ||
  stat.whatsappActivity.isMediaTransfer ||
  stat.facebookActivity.activityScore > 6 ||
  stat.whatsappActivity.activityScore > 6

/-- The HH:mm part of a window key, mirroring `timeWindow.split(' ')[1]`. -/
def windowTimePart (w : String) : String :=
  ⟨(splitOnChar ' ' w.data).getD 1 []⟩

/-- Reels masking detector (src/unnamed/part_002, `detectReelsMasking`): a
post-pass over the time-sorted stats that flags windows with strong
messaging evidence sandwiched near reels-classified windows, with a
1-to-10-minute gap on either side.  The JavaScript divides millisecond
differences by 60000 to get minutes; on the minute-aligned window keys
produced by `calculateTimeWindowStats` those divisions are exact, so
integer arithmetic below agrees with the floating-point source. -/
def detectReelsMasking (timeWindowStats : List WindowStat) : List MaskedWindowStat :=
  let sortedStats := sortStatsByWindow timeWindowStats
  sortedStats.enum.map fun (pair : Nat × WindowStat) =>
    let index := pair.1
    let stat := pair.2
    if hasStrongMessagingEvidence stat then
      let currentTime := parseWindowMs stat.timeWindow
      let recentReels := sortedStats.enum.filter fun (other : Nat × WindowStat) =>
        decide (other.1 < index) && other.2.facebookActivity.isReelsScrolling &&
          (let diff := currentTime - parseWindowMs other.2.timeWindow
           decide (60000 < diff) && decide (diff ≤ 600000))
      let subsequentReels := sortedStats.enum.filter fun (other : Nat × WindowStat) =>
        decide (index < other.1) && other.2.facebookActivity.isReelsScrolling &&
          (let diff := parseWindowMs other.2.timeWindow - currentTime
           decide (60000 < diff) && decide (diff ≤ 600000))
      if recentReels.length > 0 || subsequentReels.length > 0 then
        let beforeTimings := recentReels.map fun other => windowTimePart other.2.timeWindow
        let afterTimings := subsequentReels.map fun other => windowTimePart other.2.timeWindow
        let maskingEvidence :=
          if beforeTimings.length > 0 && afterTimings.length > 0 then
            "Suspicious: Reels stopped at " ++ String.intercalate (", ") beforeTimings ++
              ", resumed at " ++ String.intercalate (", ") afterTimings
          else if beforeTimings.length > 0 then
            "Suspicious: Strong messaging activity " ++
              toString ((currentTime -
                parseWindowMs ((recentReels.headD (0, stat)).2.timeWindow)) / 60000) ++
              "min after Reels stopped"
          else
            "Suspicious: Reels resumed " ++
              toString ((parseWindowMs ((subsequentReels.headD (0, stat)).2.timeWindow) -
                currentTime) / 60000) ++
              "min after messaging"
        ⟨stat, true, maskingEvidence⟩
      else ⟨stat, false, ""⟩
    else ⟨stat, false, ""⟩

/-- Lower-casing of a string, modelling JavaScript `toLowerCase` on the ASCII
domain names and patterns used here. -/
def lowerStr (s : String) : String :=
  ⟨s.data.map Char.toLower⟩

/-- Case-insensitive variant of `hasDomainPattern`, written from the
specification's words (matching "under case normalization"): some event
domain contains some pattern after lower-casing both.  The source's
`hasDomainPattern` is compared against this definition. -/
def hasDomainPatternCI (entries : List ProcessedLogEntry) (patterns : List String) : Bool :=
  entries.any fun entry => patterns.any fun pattern =>
    strIncludes (lowerStr entry.domain) (lowerStr pattern)

/-- Number of patterns of a category matched by at least one non-excluded
domain of the list; the specification's notion of distinct matches per
category. -/
def distinctMatchCount (domains : List String) (pats : List String) : Nat :=
  (pats.filter fun p =>
    domains.any fun domain => !isExcludedDomain domain && strIncludes domain p).length

theorem startsWithList_iff (p s : List Char) :
    startsWithList p s = true ↔ ∃ r, s = p ++ r := by
  induction p generalizing s with
  | nil => simp [startsWithList]
  | cons a as ih =>
    cases s with
    | nil => simp [startsWithList]
    | cons b bs =>
      simp only [startsWithList, Bool.and_eq_true, beq_iff_eq, ih, List.cons_append,
        List.cons.injEq]
      constructor
      · rintro ⟨rfl, r, rfl⟩
        exact ⟨r, rfl, rfl⟩
      · rintro ⟨r, rfl, rfl⟩
        exact ⟨rfl, r, rfl⟩

theorem containsSub_iff (s p : List Char) :
    containsSub s p = true ↔ ∃ l r, s = l ++ p ++ r := by
  induction s with
  | nil =>
    cases p with
    | nil => simp [containsSub]
    | cons c cs => simp [containsSub]
  | cons c rest ih =>
    simp only [containsSub, Bool.or_eq_true, startsWithList_iff, ih]
    constructor
    · rintro (⟨r, hr⟩ | ⟨l, r, hlr⟩)
      · exact ⟨[], r, by simpa using hr⟩
      · exact ⟨c :: l, r, by simp [hlr]⟩
    · rintro ⟨l, r, hlr⟩
      cases l with
      | nil => exact Or.inl ⟨r, by simpa using hlr⟩
      | cons x xs =>
        simp only [List.cons_append, List.cons.injEq] at hlr
        exact Or.inr ⟨xs, r, hlr.2⟩

theorem containsSub_trans {s p q : List Char} (h1 : containsSub s p = true)
    (h2 : containsSub p q = true) : containsSub s q = true := by
  rw [containsSub_iff] at h1 h2 ⊢
  obtain ⟨l, r, rfl⟩ := h1
  obtain ⟨l2, r2, rfl⟩ := h2
  exact ⟨l ++ l2, r2 ++ r, by simp⟩

theorem strIncludes_trans {s p q : String} (h1 : strIncludes s p = true)
    (h2 : strIncludes p q = true) : strIncludes s q = true :=
  containsSub_trans h1 h2

theorem insertByTime_perm (e : ProcessedLogEntry) (l : List ProcessedLogEntry) :
    List.Perm (insertByTime e l) (e :: l) := by
  induction l with
  | nil => exact List.Perm.refl _
  | cons x xs ih =>
    simp only [insertByTime]
    split
    · exact List.Perm.refl _
    · exact (ih.cons x).trans (List.Perm.swap e x xs)

theorem sortByTime_perm (l : List ProcessedLogEntry) : List.Perm (sortByTime l) l := by
  induction l with
  | nil => exact List.Perm.refl _
  | cons x xs ih => exact (insertByTime_perm x (sortByTime xs)).trans (ih.cons x)

theorem perm_any {α : Type} {l₁ l₂ : List α} (h : List.Perm l₁ l₂) (p : α → Bool) :
    l₁.any p = l₂.any p := by
  rw [Bool.eq_iff_iff, List.any_eq_true, List.any_eq_true]
  exact ⟨fun ⟨a, ha, hp⟩ => ⟨a, h.mem_iff.mp ha, hp⟩,
    fun ⟨a, ha, hp⟩ => ⟨a, h.mem_iff.mpr ha, hp⟩⟩

@[simp] theorem sortByTime_any (l : List ProcessedLogEntry) (p : ProcessedLogEntry → Bool) :
    (sortByTime l).any p = l.any p :=
  perm_any (sortByTime_perm l) p

@[simp] theorem hasDomainPattern_sortByTime (l : List ProcessedLogEntry) (pats : List String) :
    hasDomainPattern (sortByTime l) pats = hasDomainPattern l pats :=
  perm_any (sortByTime_perm l) _

@[simp] theorem sortByTime_filter_length (l : List ProcessedLogEntry)
    (p : ProcessedLogEntry → Bool) :
    ((sortByTime l).filter p).length = (l.filter p).length :=
  ((sortByTime_perm l).filter p).length_eq

@[simp] theorem countDomainPattern_sortByTime (l : List ProcessedLogEntry) (pats : List String) :
    countDomainPattern (sortByTime l) pats = countDomainPattern l pats :=
  ((sortByTime_perm l).filter _).length_eq

@[simp] theorem detectAPNs_sortByTime_length (l : List ProcessedLogEntry) :
    (detectAPNs (sortByTime l)).length = (detectAPNs l).length :=
  ((sortByTime_perm l).filter _).length_eq

@[simp] theorem totalFacebookDomainCount_sortByTime (l : List ProcessedLogEntry) :
    totalFacebookDomainCount (sortByTime l) = totalFacebookDomainCount l :=
  ((sortByTime_perm l).filter _).length_eq

@[simp] theorem uniqueFacebookDomainCount_sortByTime (l : List ProcessedLogEntry) :
    uniqueFacebookDomainCount (sortByTime l) = uniqueFacebookDomainCount l :=
  ((((sortByTime_perm l).filter _).map _).dedup).length_eq

theorem detectAPNs_sortByTime_eq_nil {l : List ProcessedLogEntry}
    (h : detectAPNs l = []) : detectAPNs (sortByTime l) = [] := by
  rw [detectAPNs, List.filter_eq_nil_iff] at h ⊢
  exact fun e he => h e ((sortByTime_perm l).mem_iff.mp he)

theorem hasDomainPattern_eq_true_iff (entries : List ProcessedLogEntry) (pats : List String) :
    hasDomainPattern entries pats = true ↔
      ∃ e ∈ entries, ∃ p ∈ pats, strIncludes e.domain p = true := by
  simp [hasDomainPattern, List.any_eq_true]

theorem hasDomainPattern_eq_false_iff (entries : List ProcessedLogEntry) (pats : List String) :
    hasDomainPattern entries pats = false ↔
      ∀ e ∈ entries, ∀ p ∈ pats, strIncludes e.domain p = false := by
  simp [hasDomainPattern, List.any_eq_false]

theorem addCategoryMatches_cons (d q : String) (qs acc : List String) :
    addCategoryMatches d (q :: qs) acc =
      addCategoryMatches d qs
        (if strIncludes d q && !(acc.contains q) then acc ++ [q] else acc) := rfl

theorem mem_addCategoryMatches (d : String) (pats : List String) :
    ∀ (acc : List String) (p : String),
      p ∈ addCategoryMatches d pats acc ↔ p ∈ acc ∨ (p ∈ pats ∧ strIncludes d p = true) := by
  induction pats with
  | nil => intro acc p; simp [addCategoryMatches]
  | cons q qs ih =>
    intro acc p
    rw [addCategoryMatches_cons, ih]
    by_cases hq : (strIncludes d q && !(acc.contains q)) = true
    · rw [if_pos hq]
      rw [Bool.and_eq_true, Bool.not_eq_true'] at hq
      constructor
      · rintro (h | ⟨hp, hi⟩)
        · rcases List.mem_append.mp h with h | h
          · exact Or.inl h
          · rw [List.mem_singleton] at h
            exact Or.inr ⟨by simp [h], by rw [h]; exact hq.1⟩
        · exact Or.inr ⟨List.mem_cons_of_mem q hp, hi⟩
      · rintro (h | ⟨hp, hi⟩)
        · exact Or.inl (List.mem_append.mpr (Or.inl h))
        · rcases List.mem_cons.mp hp with rfl | hp
          · exact Or.inl (List.mem_append.mpr (Or.inr (List.mem_singleton.mpr rfl)))
          · exact Or.inr ⟨hp, hi⟩
    · rw [if_neg hq]
      rw [Bool.and_eq_true, Bool.not_eq_true'] at hq
      push_neg at hq
      constructor
      · rintro (h | ⟨hp, hi⟩)
        · exact Or.inl h
        · exact Or.inr ⟨List.mem_cons_of_mem q hp, hi⟩
      · rintro (h | ⟨hp, hi⟩)
        · exact Or.inl h
        · rcases List.mem_cons.mp hp with rfl | hp
          · have hc : acc.contains p = true := by
              rcases Bool.eq_false_or_eq_true (acc.contains p) with hc | hc
              · exact hc
              · exact absurd hc (hq hi)
            exact Or.inl (List.elem_iff.mp hc)
          · exact Or.inr ⟨hp, hi⟩

theorem nodup_addCategoryMatches (d : String) (pats : List String) :
    ∀ (acc : List String), acc.Nodup → (addCategoryMatches d pats acc).Nodup := by
  induction pats with
  | nil => intro acc h; simpa [addCategoryMatches] using h
  | cons q qs ih =>
    intro acc h
    rw [addCategoryMatches_cons]
    apply ih
    by_cases hq : (strIncludes d q && !(acc.contains q)) = true
    · rw [if_pos hq]
      rw [Bool.and_eq_true, Bool.not_eq_true'] at hq
      have hqacc : q ∉ acc := fun hmem => by
        have hc : acc.contains q = true := List.elem_iff.mpr hmem
        rw [hq.2] at hc
        exact Bool.false_ne_true hc
      simp [List.nodup_append, h, hqacc]
    · rw [if_neg hq]; exact h

theorem mem_collectCategory_aux (pats : List String) :
    ∀ (ds : List String) (acc : List String) (p : String),
      p ∈ ds.foldl
          (fun acc domain =>
            if isExcludedDomain domain then acc else addCategoryMatches domain pats acc) acc ↔
        p ∈ acc ∨ ∃ d ∈ ds, isExcludedDomain d = false ∧ strIncludes d p = true ∧ p ∈ pats := by
  intro ds
  induction ds with
  | nil => intro acc p; simp
  | cons d ds ih =>
    intro acc p
    rw [List.foldl_cons, ih]
    by_cases hd : isExcludedDomain d = true
    · rw [if_pos hd]
      constructor
      · rintro (h | h)
        · exact Or.inl h
        · obtain ⟨d2, hd2, hrest⟩ := h
          exact Or.inr ⟨d2, List.mem_cons_of_mem d hd2, hrest⟩
      · rintro (h | ⟨d2, hd2, hexcl, hrest⟩)
        · exact Or.inl h
        · rcases List.mem_cons.mp hd2 with rfl | hd2
          · rw [hd] at hexcl; exact absurd hexcl (by simp)
          · exact Or.inr ⟨d2, hd2, hexcl, hrest⟩
    · rw [if_neg hd]
      rw [Bool.not_eq_true] at hd
      rw [mem_addCategoryMatches]
      constructor
      · rintro ((h | ⟨hpat, hinc⟩) | ⟨d2, hd2, hrest⟩)
        · exact Or.inl h
        · exact Or.inr ⟨d, List.mem_cons_self d ds, hd, hinc, hpat⟩
        · exact Or.inr ⟨d2, List.mem_cons_of_mem d hd2, hrest⟩
      · rintro (h | ⟨d2, hd2, hexcl, hinc, hpat⟩)
        · exact Or.inl (Or.inl h)
        · rcases List.mem_cons.mp hd2 with rfl | hd2
          · exact Or.inl (Or.inr ⟨hpat, hinc⟩)
          · exact Or.inr ⟨d2, hd2, hexcl, hinc, hpat⟩

theorem mem_collectCategory (ds pats : List String) (p : String) :
    p ∈ collectCategory ds pats ↔
      ∃ d ∈ ds, isExcludedDomain d = false ∧ strIncludes d p = true ∧ p ∈ pats := by
  rw [collectCategory, mem_collectCategory_aux]
  simp

theorem nodup_collectCategory_aux (pats : List String) :
    ∀ (ds : List String) (acc : List String), acc.Nodup →
      (ds.foldl
        (fun acc domain =>
          if isExcludedDomain domain then acc else addCategoryMatches domain pats acc) acc).Nodup := by
  intro ds
  induction ds with
  | nil => intro acc h; simpa using h
  | cons d ds ih =>
    intro acc h
    rw [List.foldl_cons]
    apply ih
    by_cases hd : isExcludedDomain d = true
    · rwa [if_pos hd]
    · rw [if_neg hd]
      exact nodup_addCategoryMatches d pats acc h

theorem nodup_collectCategory (ds pats : List String) : (collectCategory ds pats).Nodup :=
  nodup_collectCategory_aux pats ds [] List.nodup_nil

theorem collectCategory_length (ds pats : List String) (hnd : pats.Nodup) :
    (collectCategory ds pats).length = distinctMatchCount ds pats := by
  apply List.Perm.length_eq
  apply (List.perm_ext_iff_of_nodup (nodup_collectCategory ds pats) (hnd.filter _)).mpr
  intro a
  rw [mem_collectCategory, List.mem_filter]
  simp only [List.any_eq_true, Bool.and_eq_true, Bool.not_eq_true']
  constructor
  · rintro ⟨d, hd, hexcl, hinc, hpat⟩
    exact ⟨hpat, d, hd, hexcl, hinc⟩
  · rintro ⟨hpat, d, hd, hexcl, hinc⟩
    exact ⟨d, hd, hexcl, hinc, hpat⟩

theorem whatsappRules_isVideoCall (windowEntries : List ProcessedLogEntry) :
    (whatsappRules windowEntries).isVideoCall = false := rfl

theorem facebookRules_isReelsScrolling (windowEntries : List ProcessedLogEntry) :
    (facebookRules windowEntries).isReelsScrolling = false := rfl

/-- C9: for every input event list, `detectWhatsAppActivity` returns
`isVideoCall = false` — no input whatsoever yields a video-call
classification, even though the result type carries the field. -/
theorem claim9_whatsapp_never_video_call (windowEntries : List ProcessedLogEntry) :
    (detectWhatsAppActivity windowEntries).isVideoCall = false := by
  unfold detectWhatsAppActivity
  split
  · rfl
  · split
    · rfl
    · exact whatsappRules_isVideoCall windowEntries

/-- C10: for every input event list, if `detectFacebookActivity` returns
`isReelsScrolling = true` then the same result has `isMessaging = false`,
`isMediaTransfer = false`, `isCall = false` and `activityScore = 3`: the
reels classification is exclusive of every messaging/media/call flag and
carries the fixed score 3. -/
theorem claim10_reels_exclusive (windowEntries : List ProcessedLogEntry)
    (h : (detectFacebookActivity windowEntries).isReelsScrolling = true) :
    (detectFacebookActivity windowEntries).isMessaging = false ∧
    (detectFacebookActivity windowEntries).isMediaTransfer = false ∧
    (detectFacebookActivity windowEntries).isCall = false ∧
    (detectFacebookActivity windowEntries).activityScore = 3 := by
  revert h
  unfold detectFacebookActivity
  split
  · intro h; exact absurd h (by simp)
  · split
    · intro _; exact ⟨rfl, rfl, rfl, rfl⟩
    · split
      · intro _; exact ⟨rfl, rfl, rfl, rfl⟩
      · split
        · intro h; exact absurd h (by simp)
        · intro h; rw [facebookRules_isReelsScrolling] at h; exact absurd h (by simp)

/-- Witness for C10 at a concrete reels window: a single NetSeer CDN domain
triggers the reels override, and the theorem's conclusions evaluate as
stated. -/
theorem claim10_reels_exclusive_witness :
    (detectFacebookActivity [⟨"xx-netseer-ipaddr-assoc.facebook.com", 0⟩]).isReelsScrolling =
        true ∧
    ((detectFacebookActivity [⟨"xx-netseer-ipaddr-assoc.facebook.com", 0⟩]).isMessaging = false ∧
      (detectFacebookActivity [⟨"xx-netseer-ipaddr-assoc.facebook.com", 0⟩]).isMediaTransfer =
        false ∧
      (detectFacebookActivity [⟨"xx-netseer-ipaddr-assoc.facebook.com", 0⟩]).isCall = false ∧
      (detectFacebookActivity [⟨"xx-netseer-ipaddr-assoc.facebook.com", 0⟩]).activityScore = 3) :=
  ⟨by decide, claim10_reels_exclusive _ (by decide)⟩

theorem hasDomainPattern_false_of_super (es : List ProcessedLogEntry)
    {pats pats2 : List String} (h : hasDomainPattern es pats = false)
    (hsub : ∀ q ∈ pats2, ∃ p ∈ pats, strIncludes q p = true) :
    hasDomainPattern es pats2 = false := by
  rw [hasDomainPattern_eq_false_iff] at h ⊢
  intro e he q hq
  obtain ⟨p, hp, hqp⟩ := hsub q hq
  rcases Bool.eq_false_or_eq_true (strIncludes e.domain q) with ht | hf
  · have hcontr : strIncludes e.domain p = true := strIncludes_trans ht hqp
    rw [h e he p hp] at hcontr
    exact absurd hcontr (by simp)
  · exact hf

/-- C4: a window whose events match no WhatsApp core/signalling pattern and
no Facebook core/signalling pattern (including the empty window) makes both
classifiers return a result with every flag false and score 0; Facebook's
guard also needs no text-send and no upload match, which follows because
those patterns all contain the core pattern facebook.com. -/
theorem claim4_no_core_no_signal_zero (windowEntries : List ProcessedLogEntry)
    (hwc : hasDomainPattern windowEntries WHATSAPP_ACTIVITY_INDICATORS.core = false)
    (hws : hasDomainPattern windowEntries WHATSAPP_ACTIVITY_INDICATORS.signalling = false)
    (hfc : hasDomainPattern windowEntries FACEBOOK_ACTIVITY_INDICATORS.core = false)
    (hfm : hasDomainPattern windowEntries FACEBOOK_ACTIVITY_INDICATORS.messaging = false) :
    detectWhatsAppActivity windowEntries = ⟨false, false, false, false, 0, ""⟩ ∧
    detectFacebookActivity windowEntries = ⟨false, false, false, false, false, 0, false⟩ := by
  have htext : hasDomainPattern windowEntries FACEBOOK_ACTIVITY_INDICATORS.textSend = false :=
    hasDomainPattern_false_of_super windowEntries hfc (by decide)
  have hupload : hasDomainPattern windowEntries FACEBOOK_ACTIVITY_INDICATORS.mediaUpload = false :=
    hasDomainPattern_false_of_super windowEntries hfc (by decide)
  have hw : whatsappNoCoreSignal windowEntries = true := by
    unfold whatsappNoCoreSignal
    simp [hwc, hws]
  have hf : facebookGuardFail windowEntries = true := by
    unfold facebookGuardFail
    simp [hfc, hfm, htext, hupload]
  constructor
  · simp [detectWhatsAppActivity, hw]
  · simp [detectFacebookActivity, hf]

/-- Witness for C4 at the empty window: no pattern matches, and both
classifiers return the fully-zeroed results. -/
theorem claim4_no_core_no_signal_zero_witness :
    (hasDomainPattern [] WHATSAPP_ACTIVITY_INDICATORS.core = false ∧
      hasDomainPattern [] WHATSAPP_ACTIVITY_INDICATORS.signalling = false ∧
      hasDomainPattern [] FACEBOOK_ACTIVITY_INDICATORS.core = false ∧
      hasDomainPattern [] FACEBOOK_ACTIVITY_INDICATORS.messaging = false) ∧
    detectWhatsAppActivity [] = ⟨false, false, false, false, 0, ""⟩ ∧
    detectFacebookActivity [] = ⟨false, false, false, false, false, 0, false⟩ :=
  ⟨⟨by decide, by decide, by decide, by decide⟩,
    claim4_no_core_no_signal_zero [] (by decide) (by decide) (by decide) (by decide)⟩

/-- C1 counterexample: the single-entry window cdninstagram.com matches a
reels/video-CDN marker pattern (and the Facebook core pattern
instagram.com, so the classifier does not exit at its guard), yet
`detectFacebookActivity` classifies it as Instagram activity with
`isReelsScrolling = false`, contradicting the claim that any reels-marker
window yields `isReelsScrolling = true`. -/
theorem claim1_counterexample :
    hasDomainPattern [⟨"cdninstagram.com", 0⟩] FACEBOOK_ACTIVITY_INDICATORS.reelsVideo = true ∧
    hasDomainPattern [⟨"cdninstagram.com", 0⟩] FACEBOOK_ACTIVITY_INDICATORS.core = true ∧
    detectFacebookActivity [⟨"cdninstagram.com", 0⟩] =
      ⟨false, false, false, true, false, 3, false⟩ := by decide

theorem facebookReelsNetSeer_of_witness {es : List ProcessedLogEntry}
    (h : ∃ e ∈ es, strIncludes e.domain ("-netseer-ipaddr-assoc.") = true) :
    facebookReelsNetSeer es = true := by
  obtain ⟨e, he, hinc⟩ := h
  unfold facebookReelsNetSeer
  simp only [hasDomainPattern_sortByTime, sortByTime_any, Bool.and_eq_true]
  exact ⟨(hasDomainPattern_eq_true_iff es _).mpr
      ⟨e, he, "-netseer-ipaddr-assoc.", by decide, hinc⟩,
    List.any_eq_true.mpr ⟨e, he, hinc⟩⟩

theorem facebookReelsStatic_of_witness {es : List ProcessedLogEntry}
    (h : ∃ e ∈ es, strIncludes e.domain ("static-") = true ∧
      strIncludes e.domain (".xx.fbcdn.net") = true) :
    facebookReelsStatic es = true := by
  obtain ⟨e, he, hs, hx⟩ := h
  unfold facebookReelsStatic
  simp only [hasDomainPattern_sortByTime, sortByTime_any, Bool.and_eq_true]
  exact ⟨(hasDomainPattern_eq_true_iff es _).mpr ⟨e, he, "static-", by decide, hs⟩,
    List.any_eq_true.mpr ⟨e, he, by simp [hs, hx]⟩⟩

/-- C1 amended: among the reels/video-CDN markers, exactly the NetSeer
marker and the static- video-asset pattern trigger the reels override (the
oculuscdn.com, securecdn.oculus.com, cdninstagram.com and external-
markers never do).  For every window that passes the classifier's presence
guard (some core, messaging, text-send or media-upload match) and contains
a NetSeer domain or a domain containing both static- and .xx.fbcdn.net,
`detectFacebookActivity` returns `isReelsScrolling = true` and
`isMessaging = false`, regardless of which other domains co-occur. -/
theorem claim1_amended_reels_override (windowEntries : List ProcessedLogEntry)
    (hpresence : hasDomainPattern windowEntries FACEBOOK_ACTIVITY_INDICATORS.core = true ∨
      hasDomainPattern windowEntries FACEBOOK_ACTIVITY_INDICATORS.messaging = true ∨
      hasDomainPattern windowEntries FACEBOOK_ACTIVITY_INDICATORS.textSend = true ∨
      hasDomainPattern windowEntries FACEBOOK_ACTIVITY_INDICATORS.mediaUpload = true)
    (hmark : (∃ e ∈ windowEntries, strIncludes e.domain ("-netseer-ipaddr-assoc.") = true) ∨
      (∃ e ∈ windowEntries, strIncludes e.domain ("static-") = true ∧
        strIncludes e.domain (".xx.fbcdn.net") = true)) :
    (detectFacebookActivity windowEntries).isReelsScrolling = true ∧
    (detectFacebookActivity windowEntries).isMessaging = false := by
  have hguard : facebookGuardFail windowEntries = false := by
    unfold facebookGuardFail
    simp only [hasDomainPattern_sortByTime]
    rcases hpresence with h | h | h | h <;> simp [h]
  by_cases hns : facebookReelsNetSeer windowEntries = true
  · simp [detectFacebookActivity, hguard, hns]
  · have hnsf : facebookReelsNetSeer windowEntries = false := by
      rcases Bool.eq_false_or_eq_true (facebookReelsNetSeer windowEntries) with h | h
      · exact absurd h hns
      · exact h
    have hstatic : facebookReelsStatic windowEntries = true := by
      rcases hmark with h | h
      · exact absurd (facebookReelsNetSeer_of_witness h) (by simp [hnsf])
      · exact facebookReelsStatic_of_witness h
    simp [detectFacebookActivity, hguard, hnsf, hstatic]

/-- Witness for C1 amended at a concrete NetSeer window with a co-occurring
messaging domain. -/
theorem claim1_amended_reels_override_witness :
    (detectFacebookActivity
      [⟨"xx-netseer-ipaddr-assoc.facebook.com", 100⟩,
       ⟨"edge-mqtt.facebook.com", 200⟩]).isReelsScrolling = true ∧
    (detectFacebookActivity
      [⟨"xx-netseer-ipaddr-assoc.facebook.com", 100⟩,
       ⟨"edge-mqtt.facebook.com", 200⟩]).isMessaging = false :=
  claim1_amended_reels_override
    [⟨"xx-netseer-ipaddr-assoc.facebook.com", 100⟩, ⟨"edge-mqtt.facebook.com", 200⟩]
    (Or.inl (by decide))
    (Or.inl ⟨⟨"xx-netseer-ipaddr-assoc.facebook.com", 100⟩, by decide, by decide⟩)

/-- C2 counterexample: a push anchor at T with the g.whatsapp.net signalling
event at T+7 seconds falls outside the [-10s, +5s] call-correlation window
of the code, so `detectWhatsAppActivity` reports a text message with score
7 and no direction — not `isVoiceCall = true` with direction incoming and
score 8 as claimed. -/
theorem claim2_counterexample :
    detectWhatsAppActivity [⟨"1-courier.push.apple.com", 0⟩, ⟨"g.whatsapp.net", 7000⟩] =
      ⟨true, false, false, false, 7, ""⟩ := by decide

/-- C2 amended: with the signalling event inside the [-10s, +5s] window of
the push anchor — here at T+5 seconds — and no interfering Facebook
upload/messaging domain, `detectWhatsAppActivity` returns
`isVoiceCall = true`, direction incoming, and score 8. -/
theorem claim2_amended_incoming_call :
    detectWhatsAppActivity [⟨"1-courier.push.apple.com", 0⟩, ⟨"g.whatsapp.net", 5000⟩] =
      ⟨false, false, true, false, 8, "incoming"⟩ := by decide

theorem hasDomainPattern_true_mono (es : List ProcessedLogEntry) (q : String) {p : String}
    {pats : List String} (h : hasDomainPattern es [p] = true)
    (hpq : strIncludes p q = true) (hq : q ∈ pats) :
    hasDomainPattern es pats = true := by
  rw [hasDomainPattern_eq_true_iff] at h ⊢
  obtain ⟨e, he, p2, hp2, hinc⟩ := h
  rw [List.mem_singleton] at hp2
  subst hp2
  exact ⟨e, he, q, hq, strIncludes_trans hinc hpq⟩

/-- C3 counterexample: a window of exactly the eight unique Facebook domains
gateway, graph, edge-mqtt, www, pm, api, lookaside and m (one query each),
with no media-upload or media-download match and no push anchor, satisfies
the claim's antecedent, but because pm.facebook.com counts as specific
messaging evidence the app-launch detection is overridden and
`detectFacebookActivity` returns `isMessaging = true` with score 6 instead
of a background refresh with score 1. -/
theorem claim3_counterexample :
    uniqueFacebookDomainCount
        [⟨"gateway.facebook.com", 0⟩, ⟨"graph.facebook.com", 0⟩,
         ⟨"edge-mqtt.facebook.com", 0⟩, ⟨"www.facebook.com", 0⟩, ⟨"pm.facebook.com", 0⟩,
         ⟨"api.facebook.com", 0⟩, ⟨"lookaside.facebook.com", 0⟩, ⟨"m.facebook.com", 0⟩] = 8 ∧
    hasDomainPattern
        [⟨"gateway.facebook.com", 0⟩, ⟨"graph.facebook.com", 0⟩,
         ⟨"edge-mqtt.facebook.com", 0⟩, ⟨"www.facebook.com", 0⟩, ⟨"pm.facebook.com", 0⟩,
         ⟨"api.facebook.com", 0⟩, ⟨"lookaside.facebook.com", 0⟩, ⟨"m.facebook.com", 0⟩]
        FACEBOOK_ACTIVITY_INDICATORS.mediaUpload = false ∧
    hasDomainPattern
        [⟨"gateway.facebook.com", 0⟩, ⟨"graph.facebook.com", 0⟩,
         ⟨"edge-mqtt.facebook.com", 0⟩, ⟨"www.facebook.com", 0⟩, ⟨"pm.facebook.com", 0⟩,
         ⟨"api.facebook.com", 0⟩, ⟨"lookaside.facebook.com", 0⟩, ⟨"m.facebook.com", 0⟩]
        FACEBOOK_ACTIVITY_INDICATORS.mediaDownload = false ∧
    detectAPNs
        [⟨"gateway.facebook.com", 0⟩, ⟨"graph.facebook.com", 0⟩,
         ⟨"edge-mqtt.facebook.com", 0⟩, ⟨"www.facebook.com", 0⟩, ⟨"pm.facebook.com", 0⟩,
         ⟨"api.facebook.com", 0⟩, ⟨"lookaside.facebook.com", 0⟩, ⟨"m.facebook.com", 0⟩] = [] ∧
    detectFacebookActivity
        [⟨"gateway.facebook.com", 0⟩, ⟨"graph.facebook.com", 0⟩,
         ⟨"edge-mqtt.facebook.com", 0⟩, ⟨"www.facebook.com", 0⟩, ⟨"pm.facebook.com", 0⟩,
         ⟨"api.facebook.com", 0⟩, ⟨"lookaside.facebook.com", 0⟩, ⟨"m.facebook.com", 0⟩] =
      ⟨true, false, false, false, false, 6, false⟩ := by decide

/-- C3 amended: the app-launch classification additionally requires the
absence of specific messaging evidence; with no push anchor and no media
this amounts to requiring no pm.facebook.com domain (and the reels override
must not fire, so no NetSeer domain).  Under those conditions every window
with 8 or more unique Facebook domains including the launch quartet
(gateway, graph, edge-mqtt, www), no media-upload or media-download match
and no push anchor yields `isBackgroundRefresh = true`, `activityScore = 1`
and `isMessaging = false`. -/
theorem claim3_amended_app_launch (windowEntries : List ProcessedLogEntry)
    (huniq : 8 ≤ uniqueFacebookDomainCount windowEntries)
    (hgw : hasDomainPattern windowEntries ["gateway.facebook.com"] = true)
    (hgr : hasDomainPattern windowEntries ["graph.facebook.com"] = true)
    (hmq : hasDomainPattern windowEntries ["edge-mqtt.facebook.com"] = true)
    (hww : hasDomainPattern windowEntries ["www.facebook.com"] = true)
    (hup : hasDomainPattern windowEntries FACEBOOK_ACTIVITY_INDICATORS.mediaUpload = false)
    (hdown : hasDomainPattern windowEntries FACEBOOK_ACTIVITY_INDICATORS.mediaDownload = false)
    (hapns : detectAPNs windowEntries = [])
    (hpm : hasDomainPattern windowEntries ["pm.facebook.com"] = false)
    (hns : (windowEntries.any fun entry =>
      strIncludes entry.domain ("-netseer-ipaddr-assoc.")) = false) :
    detectFacebookActivity windowEntries = ⟨false, false, true, false, false, 1, false⟩ := by
  have hcore : hasDomainPattern windowEntries FACEBOOK_ACTIVITY_INDICATORS.core = true :=
    hasDomainPattern_true_mono windowEntries "facebook.com" hgw (by decide) (by decide)
  have hguard : facebookGuardFail windowEntries = false := by
    unfold facebookGuardFail
    simp [hcore]
  have hnsR : facebookReelsNetSeer windowEntries = false := by
    unfold facebookReelsNetSeer
    simp [hns]
  have hxx : (windowEntries.any fun entry =>
      strIncludes entry.domain ("static-") && strIncludes entry.domain (".xx.fbcdn.net")) =
        false := by
    simp only [List.any_eq_false]
    intro e he
    have hfb : strIncludes e.domain (".fbcdn.net") = false :=
      (hasDomainPattern_eq_false_iff windowEntries _).mp hdown e he ".fbcdn.net" (by decide)
    rcases Bool.eq_false_or_eq_true (strIncludes e.domain (".xx.fbcdn.net")) with h1 | h1
    · have hcontr := strIncludes_trans h1
        (show strIncludes ".xx.fbcdn.net" (".fbcdn.net") = true by decide)
      rw [hfb] at hcontr
      exact absurd hcontr (by simp)
    · simp [h1]
  have hstR : facebookReelsStatic windowEntries = false := by
    unfold facebookReelsStatic
    simp [hxx]
  have hapns2 : detectAPNs (sortByTime windowEntries) = [] :=
    detectAPNs_sortByTime_eq_nil hapns
  have h5 : ¬(uniqueFacebookDomainCount windowEntries ≤ 5) := by omega
  have happ : facebookIsLikelyAppLaunch windowEntries = true := by
    unfold facebookIsLikelyAppLaunch
    simp [hup, hdown, hapns2, hpm, hgw, hgr, hmq, hww, h5]
  have hcalls : hasDomainPattern windowEntries FACEBOOK_ACTIVITY_INDICATORS.calls = false :=
    hasDomainPattern_false_of_super windowEntries hdown (by decide)
  have hisCall : facebookIsCall windowEntries = false := by
    unfold facebookIsCall
    simp [hcalls]
  simp [detectFacebookActivity, hguard, hnsR, hstR, happ, hisCall]

/-- Witness for C3 amended: the counterexample window with pm.facebook.com
replaced by star.fallback.c10r.facebook.com is classified as an app-launch
background refresh. -/
theorem claim3_amended_app_launch_witness :
    detectFacebookActivity
        [⟨"gateway.facebook.com", 0⟩, ⟨"graph.facebook.com", 0⟩,
         ⟨"edge-mqtt.facebook.com", 0⟩, ⟨"www.facebook.com", 0⟩,
         ⟨"star.fallback.c10r.facebook.com", 0⟩, ⟨"api.facebook.com", 0⟩,
         ⟨"lookaside.facebook.com", 0⟩, ⟨"m.facebook.com", 0⟩] =
      ⟨false, false, true, false, false, 1, false⟩ :=
  claim3_amended_app_launch
    [⟨"gateway.facebook.com", 0⟩, ⟨"graph.facebook.com", 0⟩,
     ⟨"edge-mqtt.facebook.com", 0⟩, ⟨"www.facebook.com", 0⟩,
     ⟨"star.fallback.c10r.facebook.com", 0⟩, ⟨"api.facebook.com", 0⟩,
     ⟨"lookaside.facebook.com", 0⟩, ⟨"m.facebook.com", 0⟩]
    (by decide) (by decide) (by decide) (by decide) (by decide) (by decide) (by decide)
    (by decide) (by decide) (by decide)

/-- C5: for every domain list, concernScore equals the weighted sum of
distinct per-category matches (dating 10, anonymous 8, alternative
messaging 6, video calling 4, social messaging 2); in particular one
dating-app domain scores 10, and one dating + one alternative-messaging +
one video-calling domain scores 20. -/
theorem claim5_concern_score_formula :
    (∀ domains : List String,
      (detectRelationshipConcerns domains).concernScore =
        10 * distinctMatchCount domains RELATIONSHIP_CONCERN_INDICATORS.datingApps +
        8 * distinctMatchCount domains RELATIONSHIP_CONCERN_INDICATORS.anonymousPlatforms +
        6 * distinctMatchCount domains RELATIONSHIP_CONCERN_INDICATORS.alternativeMessaging +
        4 * distinctMatchCount domains RELATIONSHIP_CONCERN_INDICATORS.videoCalling +
        2 * distinctMatchCount domains RELATIONSHIP_CONCERN_INDICATORS.socialMessaging) ∧
    (detectRelationshipConcerns ["tinder.com"]).concernScore = 10 ∧
    (detectRelationshipConcerns ["tinder.com", "telegram.org", "zoom.us"]).concernScore = 20 := by
  refine ⟨fun domains => ?_, by decide, by decide⟩
  simp only [detectRelationshipConcerns]
  rw [collectCategory_length domains RELATIONSHIP_CONCERN_INDICATORS.datingApps (by decide),
    collectCategory_length domains RELATIONSHIP_CONCERN_INDICATORS.anonymousPlatforms (by decide),
    collectCategory_length domains RELATIONSHIP_CONCERN_INDICATORS.alternativeMessaging
      (by decide),
    collectCategory_length domains RELATIONSHIP_CONCERN_INDICATORS.videoCalling (by decide),
    collectCategory_length domains RELATIONSHIP_CONCERN_INDICATORS.socialMessaging (by decide)]
  ring

/-- C6: a domain matching the exclusion list is skipped before any category
test, so inserting it anywhere in the domain list leaves the whole
`detectRelationshipConcerns` result — every per-category match list and the
concernScore — unchanged, even when real concern domains co-occur. -/
theorem claim6_excluded_domains_inert (ds1 ds2 : List String) (d : String)
    (hd : isExcludedDomain d = true) :
    detectRelationshipConcerns (ds1 ++ d :: ds2) = detectRelationshipConcerns (ds1 ++ ds2) := by
  have hcat : ∀ pats, collectCategory (ds1 ++ d :: ds2) pats =
      collectCategory (ds1 ++ ds2) pats := by
    intro pats
    unfold collectCategory
    rw [List.foldl_append, List.foldl_append, List.foldl_cons]
    simp [hd]
  simp [detectRelationshipConcerns, hcat]

/-- Witness for C6: appending the excluded chat.google.com to a window with
a real dating-app domain changes nothing. -/
theorem claim6_excluded_domains_inert_witness :
    isExcludedDomain "chat.google.com" = true ∧
    detectRelationshipConcerns ["tinder.com", "chat.google.com"] =
      detectRelationshipConcerns ["tinder.com"] :=
  ⟨by decide, claim6_excluded_domains_inert ["tinder.com"] [] "chat.google.com" (by decide)⟩

/-- C8 counterexample: the matcher is case-sensitive, not case-normalized:
an upper-case domain does not match the lower-case pattern even though the
case-insensitive matcher built from the specification's words does. -/
theorem claim8_counterexample :
    hasDomainPattern [⟨"G.WHATSAPP.NET", 0⟩] ["g.whatsapp.net"] = false ∧
    hasDomainPatternCI [⟨"G.WHATSAPP.NET", 0⟩] ["g.whatsapp.net"] = true := by decide

/-- C8 amended: `hasDomainPattern` returns true exactly when some event's
domain contains some pattern as a contiguous substring, with no case
normalization. -/
theorem claim8_amended_case_sensitive (entries : List ProcessedLogEntry)
    (patterns : List String) :
    hasDomainPattern entries patterns = true ↔
      ∃ e ∈ entries, ∃ p ∈ patterns, ∃ l r, e.domain.data = l ++ p.data ++ r := by
  rw [hasDomainPattern_eq_true_iff]
  constructor
  · rintro ⟨e, he, p, hp, hinc⟩
    exact ⟨e, he, p, hp, (containsSub_iff _ _).mp hinc⟩
  · rintro ⟨e, he, p, hp, l, r, hlr⟩
    exact ⟨e, he, p, hp, (containsSub_iff _ _).mpr ⟨l, r, hlr⟩⟩

/-- C7: on the time-sorted sequence [reels window 10:00, strong WhatsApp
evidence window 10:03, reels window 10:07] the masking post-pass flags the
middle window with `isReelsMasking = true` and evidence naming both
bounding timestamps, and leaves the two reels windows unflagged. -/
theorem claim7_masking_sandwich :
    detectReelsMasking
      [⟨"2025-09-12 10:00", ⟨false, false, false, false, 0, ""⟩,
        ⟨false, false, true, false, true, 3, false⟩⟩,
       ⟨"2025-09-12 10:03", ⟨false, true, false, false, 6, ""⟩,
        ⟨false, false, false, false, false, 0, false⟩⟩,
       ⟨"2025-09-12 10:07", ⟨false, false, false, false, 0, ""⟩,
        ⟨false, false, true, false, true, 3, false⟩⟩] =
      [⟨⟨"2025-09-12 10:00", ⟨false, false, false, false, 0, ""⟩,
         ⟨false, false, true, false, true, 3, false⟩⟩, false, ""⟩,
       ⟨⟨"2025-09-12 10:03", ⟨false, true, false, false, 6, ""⟩,
         ⟨false, false, false, false, false, 0, false⟩⟩, true,
        "Suspicious: Reels stopped at 10:00, resumed at 10:07"⟩,
       ⟨⟨"2025-09-12 10:07", ⟨false, false, false, false, 0, ""⟩,
         ⟨false, false, true, false, true, 3, false⟩⟩, false, ""⟩] := by decide
